import Mathlib

/-!
Shallow embedding of `config/src/mtk64_dongle_led.c`, the dongle status-LED
module of the mtk64 ZMK configuration.  Each C function becomes a Lean
function on an explicit module state; side effects on the hardware and the
kernel (GPIO writes, sleeps, timer start/stop) are recorded in an event
trace.  Machine integers: `uint8_t` casts are modelled as `% 256` on `Nat`;
the init entry point returns an `Int` error code (`-ENODEV = -19`).
-/

namespace MtkLed

/-- Translation of `enum led_mode` (`LED_MODE_OFF`, `LED_MODE_ADVERTISING`,
`LED_MODE_CONNECTED`). -/
inductive LedMode where
  | off
  | advertising
  | connected
  deriving DecidableEq, Repr

/-- Observable effects on the kernel and the hardware: a GPIO write of the
LED pin (`gpio_pin_set_dt`), a blocking sleep (`k_sleep`, milliseconds),
a timer start (`k_timer_start` with initial delay and period in
milliseconds; `K_NO_WAIT` is delay 0), and a timer stop (`k_timer_stop`). -/
inductive Ev where
  | gpioWrite (value : Bool)
  | sleep (ms : Nat)
  | timerStart (delayMs periodMs : Nat)
  | timerStop
  deriving DecidableEq, Repr

/-- The connectivity subsystem's state as observed through
`zmk_ble_active_profile_is_connected` and `zmk_ble_active_profile_is_open`. -/
structure ConnState where
  isConnected : Bool
  isOpen : Bool
  deriving DecidableEq, Repr

/-- The module's mutable state: the file-scope variables `current_mode`,
`layer_blink_active`, `layer_blink_count` (an atomic word holding the
`uint8_t` layer value), `led_state`, together with the kernel objects it
owns — whether `adv_timer` is running and the count of `layer_blink_sem`
(`K_SEM_DEFINE(layer_blink_sem, 0, 1)`: capacity 1).  `device_ready`
models `device_is_ready(led.port)`, which the module only ever reads. -/
@[ext]
structure ModState where
  current_mode : LedMode
  layer_blink_active : Bool
  layer_blink_count : Nat
  led_state : Bool
  timer_running : Bool
  sem : Nat
  device_ready : Bool
  deriving DecidableEq, Repr

/-- Translation of `led_set`: early-returns when the device is not ready,
otherwise writes the pin and records the last commanded value. -/
def led_set (s : ModState) (value : Bool) : ModState × List Ev :=
  if s.device_ready then
    ({ s with led_state := value }, [Ev.gpioWrite value])
  else
    (s, [])

/-- Translation of `adv_timer_handler`: each tick of `adv_timer` flips the
last commanded LED value (`led_set(!led_state)`). -/
def adv_timer_handler (s : ModState) : ModState × List Ev :=
  led_set s (!s.led_state)

/-- Translation of `compute_mode`: connected beats open-for-pairing beats
off.  A pure function of the connectivity queries; it does not touch
`ModState` at all. -/
def compute_mode (c : ConnState) : LedMode :=
  if c.isConnected then LedMode.connected
  else if c.isOpen then LedMode.advertising
  else LedMode.off

/-- Translation of `apply_mode`.  While `layer_blink_active` is set it only
stops the timer (and only when the mode is not Advertising); otherwise it
drives the steady-state pattern for the current mode.  `ADV_TOGGLE_MS` is
100; the timer is started with `K_NO_WAIT` initial delay. -/
def apply_mode (s : ModState) : ModState × List Ev :=
  if s.layer_blink_active then
    if s.current_mode ≠ LedMode.advertising then
      ({ s with timer_running := false }, [Ev.timerStop])
    else
      (s, [])
  else
    match s.current_mode with
    | LedMode.advertising =>
        ({ s with timer_running := true }, [Ev.timerStart 0 100])
    | LedMode.connected =>
        let p := led_set { s with timer_running := false } true
        (p.1, Ev.timerStop :: p.2)
    | LedMode.off =>
        let p := led_set { s with timer_running := false } false
        (p.1, Ev.timerStop :: p.2)

/-- The body of the `for` loop in `layer_blink_thread`: `n` iterations of
`led_set(false); k_sleep(400); led_set(true); k_sleep(400)`
(`LAYER_STEP_MS` is 400). -/
def blink_cycles : Nat → ModState → ModState × List Ev
  | 0, s => (s, [])
  | n + 1, s =>
      let p1 := led_set s false
      let p2 := led_set p1.1 true
      let p3 := blink_cycles n p2.1
      (p3.1, p1.2 ++ [Ev.sleep 400] ++ p2.2 ++ [Ev.sleep 400] ++ p3.2)

/-- One iteration of the infinite loop in `layer_blink_thread`: if the
semaphore is not raised the thread stays blocked in `k_sem_take` (modelled
as a no-op step); otherwise it consumes the raise, reads
`(uint8_t)atomic_get(&layer_blink_count)`, skips zero counts, and else
sets `layer_blink_active`, stops `adv_timer`, runs the blink loop, clears
`layer_blink_active` and re-runs `apply_mode`. -/
def layer_blink_thread_step (s : ModState) : ModState × List Ev :=
  if s.sem = 0 then
    (s, [])
  else
    let s0 := { s with sem := s.sem - 1 }
    if s0.layer_blink_count % 256 = 0 then
      (s0, [])
    else
      let s1 := { s0 with layer_blink_active := true, timer_running := false }
      let p := blink_cycles (s0.layer_blink_count % 256) s1
      let q := apply_mode { p.1 with layer_blink_active := false }
      (q.1, Ev.timerStop :: (p.2 ++ q.2))

/-- Translation of `led_conn_listener_cb`: recompute the mode from the
connectivity subsystem, store it, and re-apply.  Always returns 0 to the
event framework, so only the state and trace are modelled. -/
def led_conn_listener_cb (s : ModState) (c : ConnState) : ModState × List Ev :=
  apply_mode { s with current_mode := compute_mode c }

/-- The spec's `requestLayerBlink(count)` — the tail of
`led_layer_listener_cb` (lines 130–136): guard out layer 0, then
`atomic_set(&layer_blink_count, layer); k_sem_give(&layer_blink_sem)`.
`count` is the `uint8_t` layer value, hence the `% 256`; `k_sem_give` on a
capacity-1 semaphore saturates at 1. -/
def request_layer_blink (s : ModState) (count : Nat) : ModState :=
  if count % 256 = 0 then s
  else
    { s with layer_blink_count := count % 256, sem := min (s.sem + 1) 1 }

/-- The decoded payload of a `zmk_layer_state_changed` event: the layer it
concerns and whether it became active (`ev->state`). -/
structure LayerEv where
  layer : Nat
  state : Bool
  deriving DecidableEq, Repr

/-- Translation of `led_layer_listener_cb`.  `ev = none` models
`as_zmk_layer_state_changed(eh) == NULL` (undecodable event).  `highest`
is the value returned by `zmk_keymap_highest_layer_active()` at
handler-execution time; the local `uint8_t layer` truncates it to 8 bits. -/
def led_layer_listener_cb (s : ModState) (ev : Option LayerEv) (highest : Nat) :
    ModState :=
  match ev with
  | none => s
  | some e =>
      if e.state = false then s
      else if s.current_mode ≠ LedMode.connected then s
      else request_layer_blink s (highest % 256)

/-- The boot confirmation loop in `mtk64_dongle_led_init`:
`led_set(true); k_sleep(80); led_set(false); k_sleep(80)` per iteration. -/
def boot_blink : Nat → ModState → ModState × List Ev
  | 0, s => (s, [])
  | n + 1, s =>
      let p1 := led_set s true
      let p2 := led_set p1.1 false
      let p3 := boot_blink n p2.1
      (p3.1, p1.2 ++ [Ev.sleep 80] ++ p2.2 ++ [Ev.sleep 80] ++ p3.2)

/-- Translation of `mtk64_dongle_led_init`.  `configErr` is the result of
`gpio_pin_configure_dt(&led, GPIO_OUTPUT_INACTIVE)` (an external outcome),
`c` the connectivity state observed by `compute_mode`.  Returns the error
code together with the resulting state and trace; `-ENODEV = -19`. -/
def mtk64_dongle_led_init (s : ModState) (configErr : Int) (c : ConnState) :
    Int × ModState × List Ev :=
  if s.device_ready = false then
    (-19, s, [])
  else if configErr ≠ 0 then
    (configErr, s, [])
  else
    let p := boot_blink 3 s
    let q := apply_mode { p.1 with current_mode := compute_mode c }
    (0, q.1, p.2 ++ q.2)

/-- The expected trace of `n` override blink cycles when the device is
ready: off, 400 ms, on, 400 ms, repeated. -/
def blink_pattern : Nat → List Ev
  | 0 => []
  | n + 1 =>
      [Ev.gpioWrite false, Ev.sleep 400, Ev.gpioWrite true, Ev.sleep 400]
        ++ blink_pattern n

/-- The expected trace of the three-cycle boot confirmation blink when the
device is ready: on, 80 ms, off, 80 ms, three times. -/
def boot_pattern : List Ev :=
  [Ev.gpioWrite true, Ev.sleep 80, Ev.gpioWrite false, Ev.sleep 80,
   Ev.gpioWrite true, Ev.sleep 80, Ev.gpioWrite false, Ev.sleep 80,
   Ev.gpioWrite true, Ev.sleep 80, Ev.gpioWrite false, Ev.sleep 80]

/-- The operations the three execution contexts can perform on the shared
state, for reasoning about event sequences: a connectivity-change event
(carrying the connectivity state the handler observes), a layer event
(carrying the decoded payload and the keymap query result), one wake of the
blink worker, and one tick of `adv_timer` (which only fires while the
timer is running). -/
inductive Op where
  | connEvent (c : ConnState)
  | layerEvent (ev : Option LayerEv) (highest : Nat)
  | workerWake
  | timerTick
  deriving DecidableEq, Repr

/-- One step of the system under an operation (traces discarded). -/
def step (s : ModState) : Op → ModState
  | Op.connEvent c => (led_conn_listener_cb s c).1
  | Op.layerEvent ev highest => led_layer_listener_cb s ev highest
  | Op.workerWake => (layer_blink_thread_step s).1
  | Op.timerTick => if s.timer_running then (adv_timer_handler s).1 else s

/-- The connectivity state observed by an operation, when it is a
connectivity event. -/
def connOf : Op → Option ConnState
  | Op.connEvent c => some c
  | _ => none

/-- The connectivity state carried by the last connectivity event of a
sequence of operations, if any. -/
def lastConn : List Op → Option ConnState
  | [] => none
  | o :: rest => (lastConn rest).orElse fun _ => connOf o

/-! ### Helper lemmas -/

/-- `led_set` changes at most `led_state`. -/
theorem led_set_fields (s : ModState) (v : Bool) :
    (led_set s v).1.current_mode = s.current_mode
    ∧ (led_set s v).1.layer_blink_active = s.layer_blink_active
    ∧ (led_set s v).1.layer_blink_count = s.layer_blink_count
    ∧ (led_set s v).1.timer_running = s.timer_running
    ∧ (led_set s v).1.sem = s.sem
    ∧ (led_set s v).1.device_ready = s.device_ready := by
  unfold led_set
  split <;> exact ⟨rfl, rfl, rfl, rfl, rfl, rfl⟩

/-- `apply_mode` never changes the stored mode, the override flag, the blink
count, the semaphore, or device readiness. -/
theorem apply_mode_fields (s : ModState) :
    (apply_mode s).1.current_mode = s.current_mode
    ∧ (apply_mode s).1.layer_blink_active = s.layer_blink_active
    ∧ (apply_mode s).1.layer_blink_count = s.layer_blink_count
    ∧ (apply_mode s).1.sem = s.sem
    ∧ (apply_mode s).1.device_ready = s.device_ready := by
  unfold apply_mode
  split
  · split
    · exact ⟨rfl, rfl, rfl, rfl, rfl⟩
    · exact ⟨rfl, rfl, rfl, rfl, rfl⟩
  · split
    · exact ⟨rfl, rfl, rfl, rfl, rfl⟩
    · obtain ⟨h1, h2, h3, _, h5, h6⟩ := led_set_fields { s with timer_running := false } true
      exact ⟨h1, h2, h3, h5, h6⟩
    · obtain ⟨h1, h2, h3, _, h5, h6⟩ := led_set_fields { s with timer_running := false } false
      exact ⟨h1, h2, h3, h5, h6⟩

/-- One-step unfolding of the blink loop. -/
theorem blink_cycles_succ (n : Nat) (s : ModState) :
    blink_cycles (n + 1) s
      = ((blink_cycles n (led_set (led_set s false).1 true).1).1,
         (led_set s false).2 ++ [Ev.sleep 400] ++ (led_set (led_set s false).1 true).2
           ++ [Ev.sleep 400] ++ (blink_cycles n (led_set (led_set s false).1 true).1).2) :=
  rfl

/-- With the device ready, one or more blink cycles leave the state unchanged
except that the LED ends commanded on, and emit exactly the off/on pattern. -/
theorem blink_cycles_ready (n : Nat) (s : ModState) (h : s.device_ready = true) :
    blink_cycles (n + 1) s = ({ s with led_state := true }, blink_pattern (n + 1)) := by
  induction n generalizing s with
  | zero =>
      simp [blink_cycles, led_set, h, blink_pattern]
  | succ m ih =>
      rw [blink_cycles_succ]
      have hs2 : (led_set (led_set s false).1 true).1
          = { s with led_state := true } := by
        simp [led_set, h]
      rw [hs2, ih { s with led_state := true } h]
      simp [led_set, h, blink_pattern]

/-- With the device ready, the three-cycle boot blink leaves the state
unchanged except that the LED ends commanded off, and emits exactly the
on/off boot pattern. -/
theorem boot_blink_ready (s : ModState) (h : s.device_ready = true) :
    boot_blink 3 s = ({ s with led_state := false }, boot_pattern) := by
  simp [boot_blink, led_set, h, boot_pattern]

/-- Unfolding of one worker iteration when a wake is pending and the count
read back is nonzero. -/
theorem layer_blink_thread_step_eq (s : ModState) (hs : ¬s.sem = 0)
    (hn : ¬s.layer_blink_count % 256 = 0) :
    layer_blink_thread_step s
      = ((apply_mode
            { (blink_cycles (s.layer_blink_count % 256)
                { s with sem := s.sem - 1, layer_blink_active := true,
                         timer_running := false }).1
              with layer_blink_active := false }).1,
         Ev.timerStop ::
           ((blink_cycles (s.layer_blink_count % 256)
              { s with sem := s.sem - 1, layer_blink_active := true,
                       timer_running := false }).2
            ++ (apply_mode
                  { (blink_cycles (s.layer_blink_count % 256)
                      { s with sem := s.sem - 1, layer_blink_active := true,
                               timer_running := false }).1
                    with layer_blink_active := false }).2)) := by
  unfold layer_blink_thread_step
  rw [if_neg hs]
  simp only [hn, if_false]

/-- The blink loop never changes the stored mode. -/
theorem blink_cycles_mode (n : Nat) (s : ModState) :
    (blink_cycles n s).1.current_mode = s.current_mode := by
  induction n generalizing s with
  | zero => rfl
  | succ m ih =>
      rw [blink_cycles_succ]
      calc (blink_cycles m (led_set (led_set s false).1 true).1).1.current_mode
          = (led_set (led_set s false).1 true).1.current_mode := ih _
        _ = (led_set s false).1.current_mode := (led_set_fields _ _).1
        _ = s.current_mode := (led_set_fields _ _).1

/-- When a wake is pending, the device is ready and the count read back is
`m + 1`, one worker iteration is: stop the timer, emit exactly `m + 1`
off/on cycles, and re-apply the (unchanged) mode from a state with the
override cleared and the LED last commanded on. -/
theorem worker_ready_run (s : ModState) (hs : ¬s.sem = 0)
    (hr : s.device_ready = true) (m : Nat)
    (hme : s.layer_blink_count % 256 = m + 1) :
    layer_blink_thread_step s
      = ((apply_mode { s with sem := s.sem - 1, layer_blink_active := false,
                              timer_running := false, led_state := true }).1,
         Ev.timerStop ::
           (blink_pattern (m + 1)
             ++ (apply_mode { s with sem := s.sem - 1, layer_blink_active := false,
                                     timer_running := false, led_state := true }).2)) := by
  have hn : ¬s.layer_blink_count % 256 = 0 := by rw [hme]; exact Nat.succ_ne_zero m
  rw [layer_blink_thread_step_eq s hs hn, hme]
  rw [blink_cycles_ready m
    { s with sem := s.sem - 1, layer_blink_active := true, timer_running := false } hr]

/-- Every operation except a connectivity event leaves the stored mode
unchanged, and a connectivity event overwrites it with `compute_mode` of
the observed connectivity state. -/
theorem step_mode (t : ModState) (o : Op) :
    (step t o).current_mode
      = match o with
        | Op.connEvent c => compute_mode c
        | _ => t.current_mode := by
  cases o with
  | connEvent c =>
      exact (apply_mode_fields { t with current_mode := compute_mode c }).1
  | layerEvent ev highest =>
      show (led_layer_listener_cb t ev highest).current_mode = t.current_mode
      cases ev with
      | none => rfl
      | some e =>
          by_cases h1 : e.state = false
          · simp [led_layer_listener_cb, h1]
          · by_cases h2 : t.current_mode = LedMode.connected
            · by_cases h3 : highest % 256 = 0 <;>
                simp [led_layer_listener_cb, request_layer_blink, h1, h2, h3]
            · simp [led_layer_listener_cb, h1, h2]
  | workerWake =>
      show (layer_blink_thread_step t).1.current_mode = t.current_mode
      by_cases hs : t.sem = 0
      · simp [layer_blink_thread_step, hs]
      · by_cases hn : t.layer_blink_count % 256 = 0
        · simp [layer_blink_thread_step, hs, hn]
        · rw [layer_blink_thread_step_eq t hs hn]
          calc (apply_mode
                { (blink_cycles (t.layer_blink_count % 256)
                    { t with sem := t.sem - 1, layer_blink_active := true,
                             timer_running := false }).1
                  with layer_blink_active := false }).1.current_mode
              = (blink_cycles (t.layer_blink_count % 256)
                  { t with sem := t.sem - 1, layer_blink_active := true,
                           timer_running := false }).1.current_mode :=
                (apply_mode_fields _).1
            _ = t.current_mode := blink_cycles_mode _ _
  | timerTick =>
      show (if t.timer_running then (adv_timer_handler t).1 else t).current_mode
          = t.current_mode
      split
      · exact (led_set_fields t _).1
      · rfl

/-- A sequence of operations containing no connectivity event leaves the
stored mode unchanged. -/
theorem foldl_step_mode_no_conn (ops : List Op) : ∀ (t : ModState),
    lastConn ops = none → (ops.foldl step t).current_mode = t.current_mode := by
  induction ops with
  | nil => intro t _; rfl
  | cons o rest ih =>
      intro t h
      have hcons : lastConn (o :: rest)
          = (lastConn rest).orElse fun _ => connOf o := rfl
      rw [hcons] at h
      have hrest : lastConn rest = none := by
        cases hlr : lastConn rest with
        | none => rfl
        | some c => rw [hlr] at h; exact Option.noConfusion h
      have ho : (step t o).current_mode = t.current_mode := by
        rw [hrest] at h
        have h2 : connOf o = none := h
        cases o with
        | connEvent c => exact Option.noConfusion h2
        | layerEvent ev highest => exact step_mode t _
        | workerWake => exact step_mode t _
        | timerTick => exact step_mode t _
      rw [List.foldl_cons, ih (step t o) hrest, ho]

/-! ### Claim theorems -/

/-- C6: `compute_mode` returns Connected exactly when the connectivity
subsystem reports a link established; otherwise Advertising exactly when it
reports open for pairing; otherwise Off.  It is a pure function of the two
connectivity queries — by construction it does not read or write `ModState`
at all, so it has no side effects on the module's state. -/
theorem c6_compute_mode (c : ConnState) :
    (compute_mode c = LedMode.connected ↔ c.isConnected = true)
    ∧ (compute_mode c = LedMode.advertising
        ↔ (c.isConnected = false ∧ c.isOpen = true))
    ∧ (compute_mode c = LedMode.off
        ↔ (c.isConnected = false ∧ c.isOpen = false)) := by
  obtain ⟨b1, b2⟩ := c
  cases b1 <;> cases b2 <;> decide

/-- C8: when the output device is not ready, `led_set` is a no-op that
returns normally — no hardware write is emitted and the whole module state,
including the recorded last-commanded value `led_state`, is unchanged. -/
theorem c8_led_set_not_ready (s : ModState) (v : Bool)
    (h : s.device_ready = false) :
    led_set s v = (s, []) := by
  simp [led_set, h]

/-- C3: while the override flag is set, `apply_mode` never writes the
indicator (no GPIO write in its trace, `led_state` untouched), never starts
the periodic toggle timer, and stops the timer iff the current mode is not
Advertising — in Advertising the already-running toggle is left running. -/
theorem c3_apply_mode_override_frame (s : ModState)
    (h : s.layer_blink_active = true) :
    (apply_mode s).1.led_state = s.led_state
    ∧ (∀ v, Ev.gpioWrite v ∉ (apply_mode s).2)
    ∧ (∀ d p, Ev.timerStart d p ∉ (apply_mode s).2)
    ∧ ((apply_mode s).1.timer_running
        = if s.current_mode = LedMode.advertising then s.timer_running else false)
    ∧ (Ev.timerStop ∈ (apply_mode s).2 ↔ s.current_mode ≠ LedMode.advertising) := by
  by_cases hm : s.current_mode = LedMode.advertising <;>
    simp [apply_mode, h, hm]

/-- C5: a layer-state-changed event that cannot be decoded, reports a layer
deactivation, arrives while the mode is not Connected, or finds active
layer 0, leaves the state untouched: no wake raise, no count write, no
override.  Equivalently `requestLayerBlink(0)` is a no-op. -/
theorem c5_layer_event_guards (s : ModState) :
    (∀ highest, led_layer_listener_cb s none highest = s)
    ∧ (∀ (e : LayerEv) (highest : Nat), e.state = false →
        led_layer_listener_cb s (some e) highest = s)
    ∧ (∀ (e : LayerEv) (highest : Nat), s.current_mode ≠ LedMode.connected →
        led_layer_listener_cb s (some e) highest = s)
    ∧ (∀ (e : LayerEv) (highest : Nat), highest % 256 = 0 →
        led_layer_listener_cb s (some e) highest = s)
    ∧ request_layer_blink s 0 = s := by
  refine ⟨fun highest => rfl, ?_, ?_, ?_, ?_⟩
  · intro e highest he
    simp [led_layer_listener_cb, he]
  · intro e highest hm
    cases he : e.state <;> simp [led_layer_listener_cb, he, hm]
  · intro e highest hh
    cases he : e.state <;>
      by_cases hm : s.current_mode = LedMode.connected <;>
        simp [led_layer_listener_cb, request_layer_blink, he, hm, hh]
  · simp [request_layer_blink]

/-- C10: when all guards of the layer handler pass, the recorded blink count
is the keymap subsystem's highest active layer truncated to 8 bits
(`% 256`), it reads back unchanged through the worker's `uint8_t` cast, and
the result is independent of the layer number carried in the event
payload. -/
theorem c10_blink_count_from_keymap (s : ModState) (e : LayerEv)
    (highest : Nat) (h1 : e.state = true)
    (h2 : s.current_mode = LedMode.connected) (h3 : highest % 256 ≠ 0) :
    (led_layer_listener_cb s (some e) highest).layer_blink_count = highest % 256
    ∧ (led_layer_listener_cb s (some e) highest).layer_blink_count % 256
        = highest % 256
    ∧ (∀ e2 : LayerEv, e2.state = true →
        led_layer_listener_cb s (some e2) highest
          = led_layer_listener_cb s (some e) highest) := by
  refine ⟨?_, ?_, ?_⟩
  · simp [led_layer_listener_cb, request_layer_blink, h1, h2, h3,
      Nat.mod_mod_of_dvd]
  · simp [led_layer_listener_cb, request_layer_blink, h1, h2, h3,
      Nat.mod_mod_of_dvd]
  · intro e2 he2
    simp [led_layer_listener_cb, h1, he2]

/-- C1 (amended): while the override flag is unset, `apply_mode` in
Advertising starts the periodic timer with initial delay 0 (`K_NO_WAIT`)
and fixed period 100 ms, and the immediately-firing first tick toggles the
last-commanded value — an on-phase exactly when the indicator was last
commanded off; in Connected it stops the timer and forces the indicator on;
in Off it stops the timer and forces the indicator off. -/
theorem c1_apply_mode_no_override (s : ModState)
    (h : s.layer_blink_active = false) :
    (s.current_mode = LedMode.advertising →
      apply_mode s = ({ s with timer_running := true }, [Ev.timerStart 0 100])
      ∧ (s.device_ready = true →
          (adv_timer_handler (apply_mode s).1).1.led_state = !s.led_state))
    ∧ (s.current_mode = LedMode.connected →
      (apply_mode s).1.timer_running = false
      ∧ Ev.timerStop ∈ (apply_mode s).2
      ∧ (∀ d p, Ev.timerStart d p ∉ (apply_mode s).2)
      ∧ (s.device_ready = true → (apply_mode s).1.led_state = true))
    ∧ (s.current_mode = LedMode.off →
      (apply_mode s).1.timer_running = false
      ∧ Ev.timerStop ∈ (apply_mode s).2
      ∧ (∀ d p, Ev.timerStart d p ∉ (apply_mode s).2)
      ∧ (s.device_ready = true → (apply_mode s).1.led_state = false)) := by
  refine ⟨?_, ?_, ?_⟩
  · intro hm
    constructor
    · simp [apply_mode, h, hm]
    · intro hr
      simp [apply_mode, h, hm, adv_timer_handler, led_set, hr]
  · intro hm
    by_cases hr : s.device_ready = true <;>
      simp [apply_mode, h, hm, led_set, hr]
  · intro hm
    by_cases hr : s.device_ready = true <;>
      simp [apply_mode, h, hm, led_set, hr]

/-- A steady Connected state with the indicator commanded on, as left behind
by `apply_mode` after a connection: the situation just before the link
drops while the profile stays open for pairing. -/
def connSteadyOn : ModState :=
  { current_mode := LedMode.connected, layer_blink_active := false,
    layer_blink_count := 0, led_state := true, timer_running := false,
    sem := 0, device_ready := true }

/-- C1 counterexample: from a Connected steady state with the indicator on,
a connectivity event reporting disconnected-but-open resolves the mode to
Advertising and `apply_mode` (override unset) starts the periodic timer —
but the immediately-firing first tick toggles the indicator to OFF, so the
sequence begins with an off-phase, not the claimed on-phase. -/
theorem c1_counterexample :
    connSteadyOn.layer_blink_active = false
    ∧ (led_conn_listener_cb connSteadyOn ⟨false, true⟩).1.current_mode
        = LedMode.advertising
    ∧ (led_conn_listener_cb connSteadyOn ⟨false, true⟩).1.timer_running = true
    ∧ ¬((adv_timer_handler
          (led_conn_listener_cb connSteadyOn ⟨false, true⟩).1).1.led_state
        = true) := by
  decide

/-- After any operation sequence whose last connectivity event observed `c`,
the stored mode is `compute_mode c`. -/
theorem foldl_step_mode_some (ops : List Op) : ∀ (s : ModState) (c : ConnState),
    lastConn ops = some c → (ops.foldl step s).current_mode = compute_mode c := by
  induction ops with
  | nil =>
      intro s c h
      exact Option.noConfusion h
  | cons o rest ih =>
      intro s c h
      rw [List.foldl_cons]
      have hcons : lastConn (o :: rest)
          = (lastConn rest).orElse fun _ => connOf o := rfl
      rw [hcons] at h
      cases hlr : lastConn rest with
      | some c2 =>
          rw [hlr] at h
          have hc : some c2 = some c := h
          rw [Option.some.inj hc] at hlr
          exact ih (step s o) c hlr
      | none =>
          rw [hlr] at h
          have h3 : connOf o = some c := h
          cases o with
          | connEvent d =>
              have hd : d = c := Option.some.inj h3
              subst hd
              rw [foldl_step_mode_no_conn rest (step s (Op.connEvent d)) hlr]
              exact step_mode s (Op.connEvent d)
          | layerEvent ev highest => exact Option.noConfusion h3
          | workerWake => exact Option.noConfusion h3
          | timerTick => exact Option.noConfusion h3

/-- C2: one wake of the blink worker that reads back a nonzero count `n`:
it consumes the wake, sets the override flag, stops the periodic toggle,
runs the loop with the override set, clears the flag and re-runs
`apply_mode` (first conjunct, the structural shape); with the device ready
the emitted trace is the timer stop followed by exactly `n` cycles of
(off, 400 ms, on, 400 ms) followed by `apply_mode`'s trace on the
unchanged mode; while Connected, the sequence ends with the timer stopped
and the indicator steady on. -/
theorem c2_layer_blink_worker (s : ModState) (hs : ¬s.sem = 0)
    (hn : ¬s.layer_blink_count % 256 = 0) :
    layer_blink_thread_step s
      = ((apply_mode { (blink_cycles (s.layer_blink_count % 256)
              { s with sem := s.sem - 1, layer_blink_active := true,
                       timer_running := false }).1
            with layer_blink_active := false }).1,
         Ev.timerStop ::
           ((blink_cycles (s.layer_blink_count % 256)
               { s with sem := s.sem - 1, layer_blink_active := true,
                        timer_running := false }).2
             ++ (apply_mode { (blink_cycles (s.layer_blink_count % 256)
                     { s with sem := s.sem - 1, layer_blink_active := true,
                              timer_running := false }).1
                   with layer_blink_active := false }).2))
    ∧ (s.device_ready = true →
        layer_blink_thread_step s
          = ((apply_mode { s with sem := s.sem - 1, layer_blink_active := false,
                                  timer_running := false, led_state := true }).1,
             Ev.timerStop ::
               (blink_pattern (s.layer_blink_count % 256)
                 ++ (apply_mode { s with sem := s.sem - 1,
                                         layer_blink_active := false,
                                         timer_running := false,
                                         led_state := true }).2)))
    ∧ (s.device_ready = true → s.current_mode = LedMode.connected →
        (layer_blink_thread_step s).2
          = Ev.timerStop ::
              (blink_pattern (s.layer_blink_count % 256)
                ++ [Ev.timerStop, Ev.gpioWrite true])
        ∧ (layer_blink_thread_step s).1.led_state = true
        ∧ (layer_blink_thread_step s).1.layer_blink_active = false
        ∧ (layer_blink_thread_step s).1.timer_running = false) := by
  obtain ⟨m, hme⟩ := Nat.exists_eq_succ_of_ne_zero hn
  refine ⟨layer_blink_thread_step_eq s hs hn, ?_, ?_⟩
  · intro hr
    rw [worker_ready_run s hs hr m hme, hme]
  · intro hr hm
    rw [worker_ready_run s hs hr m hme, hme]
    simp [apply_mode, led_set, hm, hr]

/-- C4: two back-to-back nonzero blink requests before the worker wakes
leave the capacity-1 semaphore holding exactly one pending raise and the
count of the second request; the single subsequent worker wake runs exactly
one sequence of `c2` cycles, after which the semaphore is empty and a
further worker step blocks without blinking. -/
theorem c4_wake_coalescing (s : ModState) (c1 c2 : Nat)
    (h1 : ¬c1 = 0) (h1b : c1 < 256) (h2 : ¬c2 = 0) (h2b : c2 < 256)
    (hr : s.device_ready = true) :
    (request_layer_blink (request_layer_blink s c1) c2).sem = 1
    ∧ (request_layer_blink (request_layer_blink s c1) c2).layer_blink_count = c2
    ∧ layer_blink_thread_step (request_layer_blink (request_layer_blink s c1) c2)
        = ((apply_mode { s with layer_blink_count := c2, sem := 0,
                                layer_blink_active := false,
                                timer_running := false,
                                led_state := true }).1,
           Ev.timerStop ::
             (blink_pattern c2
               ++ (apply_mode { s with layer_blink_count := c2, sem := 0,
                                       layer_blink_active := false,
                                       timer_running := false,
                                       led_state := true }).2))
    ∧ (layer_blink_thread_step
        (request_layer_blink (request_layer_blink s c1) c2)).1.sem = 0
    ∧ layer_blink_thread_step
          ((layer_blink_thread_step
            (request_layer_blink (request_layer_blink s c1) c2)).1)
        = ((layer_blink_thread_step
            (request_layer_blink (request_layer_blink s c1) c2)).1, []) := by
  obtain ⟨m, hmc2⟩ := Nat.exists_eq_succ_of_ne_zero h2
  have hm1 : c1 % 256 = c1 := Nat.mod_eq_of_lt h1b
  have hm2 : c2 % 256 = c2 := Nat.mod_eq_of_lt h2b
  have e2 : request_layer_blink (request_layer_blink s c1) c2
      = { s with layer_blink_count := c2, sem := 1 } := by
    obtain ⟨cm, la, lc, ls, tr, sm, dr⟩ := s
    simp [request_layer_blink, hm1, hm2, h1, h2]
  have hsem : ¬({ s with layer_blink_count := c2, sem := 1 } : ModState).sem = 0 := by
    simp
  have hme : ({ s with layer_blink_count := c2, sem := 1 } : ModState).layer_blink_count
      % 256 = m + 1 := by
    show c2 % 256 = m + 1
    rw [hm2, hmc2]
  have hw := worker_ready_run { s with layer_blink_count := c2, sem := 1 }
    hsem hr m hme
  have hw2 : layer_blink_thread_step { s with layer_blink_count := c2, sem := 1 }
      = ((apply_mode { s with layer_blink_count := c2, sem := 0,
                              layer_blink_active := false, timer_running := false,
                              led_state := true }).1,
         Ev.timerStop ::
           (blink_pattern c2
             ++ (apply_mode { s with layer_blink_count := c2, sem := 0,
                                     layer_blink_active := false,
                                     timer_running := false,
                                     led_state := true }).2)) := by
    rw [hw, hmc2]
    rfl
  have hz : (apply_mode { s with layer_blink_count := c2, sem := 0,
                                 layer_blink_active := false,
                                 timer_running := false,
                                 led_state := true }).1.sem = 0 :=
    (apply_mode_fields _).2.2.2.1
  refine ⟨by rw [e2], by rw [e2], by rw [e2]; exact hw2, ?_, ?_⟩
  · rw [e2, hw2]
    exact hz
  · rw [e2, hw2]
    simp [layer_blink_thread_step, hz]

/-- C7: module initialization returns a nonzero code (`-ENODEV` or the
configuration error) when the output device is not ready or configuration
fails; otherwise it emits exactly three on/off confirmation cycles of 80 ms
per half-cycle, then stores the computed initial mode and applies it via
`apply_mode`, returning 0. -/
theorem c7_init (s : ModState) (cfgErr : Int) (c : ConnState) :
    (s.device_ready = false → ¬(mtk64_dongle_led_init s cfgErr c).1 = 0)
    ∧ (¬cfgErr = 0 → ¬(mtk64_dongle_led_init s cfgErr c).1 = 0)
    ∧ (s.device_ready = true → cfgErr = 0 →
        (mtk64_dongle_led_init s cfgErr c).1 = 0
        ∧ (mtk64_dongle_led_init s cfgErr c).2.2
            = boot_pattern
              ++ (apply_mode { s with led_state := false,
                                      current_mode := compute_mode c }).2
        ∧ (mtk64_dongle_led_init s cfgErr c).2.1
            = (apply_mode { s with led_state := false,
                                   current_mode := compute_mode c }).1) := by
  refine ⟨?_, ?_, ?_⟩
  · intro h
    simp [mtk64_dongle_led_init, h]
  · intro h
    by_cases hd : s.device_ready = false
    · simp [mtk64_dongle_led_init, hd]
    · simp [mtk64_dongle_led_init, hd, h]
  · intro hd hc
    subst hc
    have hd' : ¬s.device_ready = false := by simp [hd]
    have hbranch : mtk64_dongle_led_init s 0 c
        = (0,
           (apply_mode { (boot_blink 3 s).1
                         with current_mode := compute_mode c }).1,
           (boot_blink 3 s).2
             ++ (apply_mode { (boot_blink 3 s).1
                              with current_mode := compute_mode c }).2) := by
      unfold mtk64_dongle_led_init
      rw [if_neg hd', if_neg (by simp)]
    rw [hbranch, boot_blink_ready s hd]
    exact ⟨rfl, rfl, rfl⟩

/-- C9: the stored mode is a function of the latest connectivity state
only: after any operation sequence whose last connectivity event observed
`c`, the mode equals `compute_mode c`; a connectivity event always
overwrites the mode with `compute_mode` of what it observes, and no other
operation ever writes the mode. -/
theorem c9_mode_latest_conn (ops : List Op) (s : ModState) (c : ConnState)
    (h : lastConn ops = some c) :
    (ops.foldl step s).current_mode = compute_mode c
    ∧ (∀ (t : ModState) (d : ConnState),
        (step t (Op.connEvent d)).current_mode = compute_mode d)
    ∧ (∀ (t : ModState) (o : Op), connOf o = none →
        (step t o).current_mode = t.current_mode) := by
  refine ⟨foldl_step_mode_some ops s c h, ?_, ?_⟩
  · intro t d
    exact step_mode t (Op.connEvent d)
  · intro t o ho
    cases o with
    | connEvent d => exact Option.noConfusion ho
    | layerEvent ev highest => exact step_mode t _
    | workerWake => exact step_mode t _
    | timerTick => exact step_mode t _

/-! ### Concrete states for witnesses -/

/-- A steady Advertising-eligible state: override inactive, LED last
commanded off, device ready. -/
def advStart : ModState :=
  { current_mode := LedMode.advertising, layer_blink_active := false,
    layer_blink_count := 0, led_state := false, timer_running := false,
    sem := 0, device_ready := true }

/-- A steady Connected state: override inactive, LED on, device ready. -/
def connReady : ModState :=
  { current_mode := LedMode.connected, layer_blink_active := false,
    layer_blink_count := 0, led_state := true, timer_running := false,
    sem := 0, device_ready := true }

/-- A state in the middle of an override sequence. -/
def overrideActive : ModState :=
  { current_mode := LedMode.connected, layer_blink_active := true,
    layer_blink_count := 2, led_state := true, timer_running := false,
    sem := 0, device_ready := true }

/-- A state whose output device is absent. -/
def notReady : ModState :=
  { current_mode := LedMode.off, layer_blink_active := false,
    layer_blink_count := 0, led_state := false, timer_running := false,
    sem := 0, device_ready := false }

/-- Scenario B: the state right after a layer-3 activation event is handled
while Connected (keymap reports highest active layer 3). -/
def afterLayer3 : ModState := led_layer_listener_cb connReady (some (LayerEv.mk 3 true)) 3

/-- A mixed operation sequence whose last connectivity event reports
disconnected-but-open. -/
def opsW : List Op :=
  [Op.connEvent (ConnState.mk true false), Op.layerEvent (some (LayerEv.mk 3 true)) 3,
   Op.workerWake, Op.connEvent (ConnState.mk false true), Op.timerTick]

/-! ### Witnesses -/

/-- C1 witness: the amended claim evaluated at a concrete ready Advertising
state with the LED last commanded off. -/
theorem c1_witness :
    advStart.layer_blink_active = false
    ∧ ((advStart.current_mode = LedMode.advertising →
        apply_mode advStart
          = ({ advStart with timer_running := true }, [Ev.timerStart 0 100])
        ∧ (advStart.device_ready = true →
            (adv_timer_handler (apply_mode advStart).1).1.led_state
              = !advStart.led_state))
      ∧ (advStart.current_mode = LedMode.connected →
        (apply_mode advStart).1.timer_running = false
        ∧ Ev.timerStop ∈ (apply_mode advStart).2
        ∧ (∀ d p, Ev.timerStart d p ∉ (apply_mode advStart).2)
        ∧ (advStart.device_ready = true → (apply_mode advStart).1.led_state = true))
      ∧ (advStart.current_mode = LedMode.off →
        (apply_mode advStart).1.timer_running = false
        ∧ Ev.timerStop ∈ (apply_mode advStart).2
        ∧ (∀ d p, Ev.timerStart d p ∉ (apply_mode advStart).2)
        ∧ (advStart.device_ready = true →
            (apply_mode advStart).1.led_state = false))) :=
  ⟨rfl, c1_apply_mode_no_override advStart rfl⟩

/-- C2 witness: scenario B — after a layer-3 activation while Connected the
worker wake emits the timer stop, exactly three 400 ms off/on cycles and
the steady-on restoration. -/
theorem c2_witness :
    (¬afterLayer3.sem = 0)
    ∧ (¬afterLayer3.layer_blink_count % 256 = 0)
    ∧ (layer_blink_thread_step afterLayer3
        = ((apply_mode { (blink_cycles (afterLayer3.layer_blink_count % 256)
                { afterLayer3 with sem := afterLayer3.sem - 1,
                                   layer_blink_active := true,
                                   timer_running := false }).1
              with layer_blink_active := false }).1,
           Ev.timerStop ::
             ((blink_cycles (afterLayer3.layer_blink_count % 256)
                 { afterLayer3 with sem := afterLayer3.sem - 1,
                                    layer_blink_active := true,
                                    timer_running := false }).2
               ++ (apply_mode { (blink_cycles (afterLayer3.layer_blink_count % 256)
                       { afterLayer3 with sem := afterLayer3.sem - 1,
                                          layer_blink_active := true,
                                          timer_running := false }).1
                     with layer_blink_active := false }).2))
      ∧ (afterLayer3.device_ready = true →
          layer_blink_thread_step afterLayer3
            = ((apply_mode { afterLayer3 with sem := afterLayer3.sem - 1,
                                              layer_blink_active := false,
                                              timer_running := false,
                                              led_state := true }).1,
               Ev.timerStop ::
                 (blink_pattern (afterLayer3.layer_blink_count % 256)
                   ++ (apply_mode { afterLayer3 with sem := afterLayer3.sem - 1,
                                                     layer_blink_active := false,
                                                     timer_running := false,
                                                     led_state := true }).2)))
      ∧ (afterLayer3.device_ready = true →
          afterLayer3.current_mode = LedMode.connected →
          (layer_blink_thread_step afterLayer3).2
            = Ev.timerStop ::
                (blink_pattern (afterLayer3.layer_blink_count % 256)
                  ++ [Ev.timerStop, Ev.gpioWrite true])
          ∧ (layer_blink_thread_step afterLayer3).1.led_state = true
          ∧ (layer_blink_thread_step afterLayer3).1.layer_blink_active = false
          ∧ (layer_blink_thread_step afterLayer3).1.timer_running = false)) :=
  ⟨by decide, by decide,
   c2_layer_blink_worker afterLayer3 (by decide) (by decide)⟩

/-- C3 witness: the frame property of `apply_mode` under an active override,
at a concrete Connected state. -/
theorem c3_witness :
    overrideActive.layer_blink_active = true
    ∧ ((apply_mode overrideActive).1.led_state = overrideActive.led_state
      ∧ (∀ v, Ev.gpioWrite v ∉ (apply_mode overrideActive).2)
      ∧ (∀ d p, Ev.timerStart d p ∉ (apply_mode overrideActive).2)
      ∧ ((apply_mode overrideActive).1.timer_running
          = if overrideActive.current_mode = LedMode.advertising then
              overrideActive.timer_running
            else false)
      ∧ (Ev.timerStop ∈ (apply_mode overrideActive).2
          ↔ overrideActive.current_mode ≠ LedMode.advertising)) :=
  ⟨rfl, c3_apply_mode_override_frame overrideActive rfl⟩

/-- C4 witness: requests for 2 then 3 blinks before the worker wakes, from
a steady Connected state. -/
theorem c4_witness :
    (¬(2 : Nat) = 0) ∧ (2 : Nat) < 256 ∧ (¬(3 : Nat) = 0) ∧ (3 : Nat) < 256
    ∧ connReady.device_ready = true
    ∧ ((request_layer_blink (request_layer_blink connReady 2) 3).sem = 1
      ∧ (request_layer_blink (request_layer_blink connReady 2) 3).layer_blink_count = 3
      ∧ layer_blink_thread_step (request_layer_blink (request_layer_blink connReady 2) 3)
          = ((apply_mode { connReady with layer_blink_count := 3, sem := 0,
                                          layer_blink_active := false,
                                          timer_running := false,
                                          led_state := true }).1,
             Ev.timerStop ::
               (blink_pattern 3
                 ++ (apply_mode { connReady with layer_blink_count := 3, sem := 0,
                                                 layer_blink_active := false,
                                                 timer_running := false,
                                                 led_state := true }).2))
      ∧ (layer_blink_thread_step
          (request_layer_blink (request_layer_blink connReady 2) 3)).1.sem = 0
      ∧ layer_blink_thread_step
            ((layer_blink_thread_step
              (request_layer_blink (request_layer_blink connReady 2) 3)).1)
          = ((layer_blink_thread_step
              (request_layer_blink (request_layer_blink connReady 2) 3)).1, [])) :=
  ⟨by decide, by decide, by decide, by decide, rfl,
   c4_wake_coalescing connReady 2 3 (by decide) (by decide) (by decide)
     (by decide) rfl⟩

/-- C5 witness: the guard conjunction evaluated at a concrete Connected
state. -/
theorem c5_witness :
    (∀ highest, led_layer_listener_cb connReady none highest = connReady)
    ∧ (∀ (e : LayerEv) (highest : Nat), e.state = false →
        led_layer_listener_cb connReady (some e) highest = connReady)
    ∧ (∀ (e : LayerEv) (highest : Nat),
        connReady.current_mode ≠ LedMode.connected →
        led_layer_listener_cb connReady (some e) highest = connReady)
    ∧ (∀ (e : LayerEv) (highest : Nat), highest % 256 = 0 →
        led_layer_listener_cb connReady (some e) highest = connReady)
    ∧ request_layer_blink connReady 0 = connReady :=
  c5_layer_event_guards connReady

/-- C7 witness: the success branch of initialization at a concrete ready
state with configuration succeeding, plus the two failure branches at a
concrete absent device and a concrete failing configuration. -/
theorem c7_witness :
    (¬(mtk64_dongle_led_init notReady 0 (ConnState.mk true false)).1 = 0)
    ∧ ((mtk64_dongle_led_init connReady 0 (ConnState.mk true false)).1 = 0
      ∧ (mtk64_dongle_led_init connReady 0 (ConnState.mk true false)).2.2
          = boot_pattern
            ++ (apply_mode { connReady with led_state := false,
                                            current_mode := compute_mode (ConnState.mk true false) }).2
      ∧ (mtk64_dongle_led_init connReady 0 (ConnState.mk true false)).2.1
          = (apply_mode { connReady with led_state := false,
                                         current_mode := compute_mode (ConnState.mk true false) }).1) :=
  ⟨(c7_init notReady 0 (ConnState.mk true false)).1 rfl,
   (c7_init connReady 0 (ConnState.mk true false)).2.2 rfl rfl⟩

/-- C8 witness: `led_set` at a concrete absent-device state. -/
theorem c8_witness :
    notReady.device_ready = false ∧ led_set notReady true = (notReady, []) :=
  ⟨rfl, c8_led_set_not_ready notReady true rfl⟩

/-- C9 witness: a concrete mixed sequence of five operations whose last
connectivity event reports disconnected-but-open. -/
theorem c9_witness :
    lastConn opsW = some (ConnState.mk false true)
    ∧ ((opsW.foldl step connReady).current_mode
          = compute_mode (ConnState.mk false true)
      ∧ (∀ (t : ModState) (d : ConnState),
          (step t (Op.connEvent d)).current_mode = compute_mode d)
      ∧ (∀ (t : ModState) (o : Op), connOf o = none →
          (step t o).current_mode = t.current_mode)) :=
  ⟨by decide, c9_mode_latest_conn opsW connReady (ConnState.mk false true) (by decide)⟩

/-- C10 witness: a layer event carrying payload layer 7 while the keymap
reports highest active layer 3, at a concrete Connected state. -/
theorem c10_witness :
    (LayerEv.mk 7 true).state = true
    ∧ connReady.current_mode = LedMode.connected
    ∧ (¬(3 : Nat) % 256 = 0)
    ∧ ((led_layer_listener_cb connReady (some (LayerEv.mk 7 true)) 3).layer_blink_count
        = 3 % 256
      ∧ (led_layer_listener_cb connReady (some (LayerEv.mk 7 true)) 3).layer_blink_count % 256
          = 3 % 256
      ∧ (∀ e2 : LayerEv, e2.state = true →
          led_layer_listener_cb connReady (some e2) 3
            = led_layer_listener_cb connReady (some (LayerEv.mk 7 true)) 3)) :=
  ⟨rfl, rfl, by decide,
   c10_blink_count_from_keymap connReady (LayerEv.mk 7 true) 3 rfl rfl (by decide)⟩

end MtkLed
